import Mathlib

/-!
Verification of the tensorizer rewrite pass of
`src/beanmachine/ppl/compiler/tensorizer_transformer.py`.

The pass walks a computation graph and rewrites scalar-wise operator chains
over array-valued operands into array-native operations.  The definitions
below are a shallow embedding of that module: shapes, the element-type
(category) resolver, the per-operator eligibility predicates, and the
per-operator rewrite functions.  Python exceptions (`raise ValueError`,
failed `assert`, out-of-range indexing) are modelled as `Except.error`;
graph nodes produced through the `BMGraphBuilder` `add_*` calls are modelled
as constructors of an expression type whose leaves are the (opaque) replaced
operands handed to the rewrite functions.
-/

namespace Tensorizer

/-- Result shape of a node as computed by the sizer: either the ordered list
of dimension sizes, or the distinguished `Unsized` value meaning shape
inference could not determine a shape. -/
inductive Size where
  | unsized : Size
  | sized (dims : List Nat) : Size
deriving DecidableEq

/-- Modelled from the spec: `is_scalar` lives in `sizer.py`, which is not part
of the sources at hand; per the specification (data model and glossary,
"scalars have an empty or all-ones shape") a sized shape is scalar exactly
when every dimension equals 1; the empty shape is vacuously all-ones. -/
def is_scalar (dims : List Nat) : Bool :=
  dims.all (fun d => d == 1)

/-- Shape categories (`class ElementType` of the source module). -/
inductive ElementType where
  | TENSOR
  | SCALAR
  | MATRIX
  | UNKNOWN
deriving DecidableEq

/-- Operator kinds of graph nodes that the tensorizer dispatches on
(the keys of `can_be_transformed_map` and `transform_map`); `Other` stands
for every node class outside those tables (consumers of a negation may be of
any kind). -/
inductive OpKind where
  | Addition
  | Multiplication
  | Division
  | Complement
  | Exp
  | Log
  | Log1mexp
  | Negate
  | Sum
  | Other (tag : Nat)
deriving DecidableEq

/-- Original graph node as the tensorizer inspects it: its operator kind, its
ordered operands (`node.inputs.inputs`), and the operator kinds of its
consumers (`node.outputs.items`, used only by the negation gate).  Operands
are drawn from an opaque node type `ν` whose shapes are given by a sizer
function `ν → Size`. -/
structure OrigNode (ν : Type) where
  op : OpKind
  inputs : List ν
  outputs : List OpKind

/-- Nodes of the rewritten graph.  Each constructor is one
`BMGraphBuilder.add_*` call made by the rewrite functions; `operand` embeds a
replaced operand (an element of `new_inputs`); `cloned` stands for
`Cloner.clone node new_inputs`, the identity rewrite that reproduces the
node's operator kind over the replaced operands. -/
inductive Expr (ν : Type) where
  | operand (v : ν)
  | pos_real (value : ℚ)
  | division (l r : Expr ν)
  | multiplication (l r : Expr ν)
  | sum (args : List (Expr ν))
  | matrix_addition (l r : Expr ν)
  | matrix_sum (e : Expr ν)
  | matrix_scale (s m : Expr ν)
  | elementwise_multiplication (l r : Expr ν)
  | matrix_complement (e : Expr ν)
  | matrix_exp (e : Expr ν)
  | matrix_log (e : Expr ν)
  | matrix_log1mexp (e : Expr ν)
  | matrix_negate (e : Expr ν)
  | cloned (op : OpKind) (args : List (Expr ν))

/-- Modelled from the spec: `Cloner.clone` (in `copy_and_replace.py`, not part
of the sources at hand) performs an identity rewrite: a structurally
identical node of the same operator kind over the replaced operands. -/
def clone {ν : Type} (op : OpKind) (new_inputs : List (Expr ν)) : Expr ν :=
  .cloned op new_inputs

/-- Category resolver `Tensorizer._element_type`, translated branch for
branch from the source: unsized is UNKNOWN; rank 0 or an all-ones shape is
SCALAR; rank 1 with the single dimension greater than 1 is MATRIX; rank 2 is
MATRIX; everything else is TENSOR. -/
def element_type (size : Size) : ElementType :=
  match size with
  | .unsized => .UNKNOWN
  | .sized dims =>
    if dims.length = 0 ∨ is_scalar dims = true then .SCALAR
    else if dims.length = 1 ∧ 1 < dims.headD 0 then .MATRIX
    else if dims.length = 2 then .MATRIX
    else .TENSOR

/-- Category assignment read off the specification's own words (data model:
SCALAR for rank 0 or rank at least 1 with every dimension equal to 1; MATRIX
for rank exactly 2 or rank exactly 1 with its single dimension greater than
1; HIGHER-RANK for any other rank at least 3 shape; UNKNOWN for unsized),
clauses tried in the order the specification lists them; `none` when no
clause of the description applies.  Stated for comparison with
`element_type`, which is translated from the source. -/
def claimed_element_type (size : Size) : Option ElementType :=
  match size with
  | .unsized => some .UNKNOWN
  | .sized dims =>
    if dims.length = 0 ∨ (1 ≤ dims.length ∧ ∀ d ∈ dims, d = 1) then some .SCALAR
    else if dims.length = 2 ∨ (dims.length = 1 ∧ 1 < dims.headD 0) then some .MATRIX
    else if 3 ≤ dims.length then some .TENSOR
    else none

/-- Eligibility predicate `Tensorizer.div_can_be_tensorized`: exactly two
operands, the first of category MATRIX and the second of category SCALAR. -/
def div_can_be_tensorized {ν : Type} (sz : ν → Size) (node : OrigNode ν) : Bool :=
  match node.inputs with
  | [a, b] =>
    decide (element_type (sz a) = .MATRIX) && decide (element_type (sz b) = .SCALAR)
  | _ => false

/-- Eligibility predicate `Tensorizer.negate_can_be_tensorized`: a negation
may be tensorized only when none of its consumers is one of the node kinds
still owned by the earlier unsupported-node normalization pass.  The set
`UnsupportedNodeFixer._unsupported_nodes` lives in `fix_unsupported.py`,
which is not part of the sources at hand, so membership in it is the
abstract parameter `unsupported`. -/
def negate_can_be_tensorized {ν : Type} (unsupported : OpKind → Bool)
    (node : OrigNode ν) : Bool :=
  if node.outputs.any unsupported then false else true

/-- Eligibility predicate `Tensorizer.mult_can_be_tensorized`: exactly two
operands. -/
def mult_can_be_tensorized {ν : Type} (node : OrigNode ν) : Bool :=
  decide (node.inputs.length = 2)

/-- Dispatch `Tensorizer.can_be_tensorized` through
`can_be_transformed_map`: addition, complement, exp, log, log1mexp and sum
are always eligible; multiplication, division and negation use their
dedicated predicates; node kinds outside the table are not eligible. -/
def can_be_tensorized {ν : Type} (sz : ν → Size) (unsupported : OpKind → Bool)
    (node : OrigNode ν) : Bool :=
  match node.op with
  | .Addition => true
  | .Multiplication => mult_can_be_tensorized node
  | .Division => div_can_be_tensorized sz node
  | .Complement => true
  | .Exp => true
  | .Log => true
  | .Log1mexp => true
  | .Negate => negate_can_be_tensorized unsupported node
  | .Sum => true
  | .Other _ => false

/-- Rewrite function `Tensorizer._tensorize_div`: assert two original
operands, re-check that the first replaced operand is MATRIX and the second
SCALAR (raising `ValueError` otherwise), then build
`matrix_scale(division(pos_real 1, scalar), tensor)`. -/
def tensorize_div {ν : Type} (sz : ν → Size) (node : OrigNode ν)
    (new_inputs : List ν) : Except String (Expr ν) :=
  if node.inputs.length = 2 then
    match new_inputs with
    | t :: s :: _ =>
      if element_type (sz t) ≠ .MATRIX then
        .error "Expected a matrix as first operand"
      else if element_type (sz s) ≠ .SCALAR then
        .error "Expected a scalar as second operand"
      else
        .ok (.matrix_scale (.division (.pos_real 1) (.operand s)) (.operand t))
    | _ => .error "list index out of range"
  else .error "assertion failed"

/-- Rewrite function `Tensorizer._tensorize_sum`: assert at least one
replaced operand; if any original operand has category MATRIX, fold the
replaced operands left to right through `matrix_addition` and wrap the
result in `matrix_sum`; otherwise emit a plain n-ary `sum`. -/
def tensorize_sum {ν : Type} (sz : ν → Size) (node : OrigNode ν)
    (new_inputs : List ν) : Except String (Expr ν) :=
  match new_inputs with
  | [] => .error "assertion failed"
  | first :: rest =>
    if ∃ o ∈ node.inputs, element_type (sz o) = .MATRIX then
      .ok (.matrix_sum
        (rest.foldl (fun current i => .matrix_addition current (.operand i))
          (.operand first)))
    else
      .ok (.sum ((first :: rest).map Expr.operand))

/-- Rewrite function `Tensorizer._tensorize_multiply`: raise `ValueError`
unless there are exactly two replaced operands; raise `ValueError` if either
operand's size is unsized; otherwise dispatch on which operands are scalar:
neither gives `elementwise_multiplication`, exactly one gives
`matrix_scale(scalar, tensor)`, both gives plain `multiplication`. -/
def tensorize_multiply {ν : Type} (sz : ν → Size) (node : OrigNode ν)
    (new_inputs : List ν) : Except String (Expr ν) :=
  match new_inputs with
  | [a, b] =>
    match sz a, sz b with
    | .sized la, .sized lb =>
      if is_scalar la = false ∧ is_scalar lb = false then
        .ok (.elementwise_multiplication (.operand a) (.operand b))
      else if is_scalar la = true ∧ is_scalar lb = false then
        .ok (.matrix_scale (.operand a) (.operand b))
      else if is_scalar lb = true ∧ is_scalar la = false then
        .ok (.matrix_scale (.operand b) (.operand a))
      else
        .ok (.multiplication (.operand a) (.operand b))
    | _, _ => .error "cannot multiply an unsized quantity"
  | _ =>
    .error "Cannot transform a mult into a tensor mult because there are not two operands"

/-- Rewrite function `Tensorizer._tensorize_unary_elementwise`: assert one
replaced operand; emit the array-valued variant (the `creator`) when it is
MATRIX, otherwise clone the node unchanged over the replaced operands. -/
def tensorize_unary_elementwise {ν : Type} (sz : ν → Size) (node : OrigNode ν)
    (new_inputs : List ν) (creator : Expr ν → Expr ν) : Except String (Expr ν) :=
  match new_inputs with
  | [x] =>
    if element_type (sz x) = .MATRIX then .ok (creator (.operand x))
    else .ok (clone node.op (new_inputs.map Expr.operand))
  | _ => .error "assertion failed"

/-- Rewrite function `Tensorizer._tensorize_binary_elementwise`: assert two
replaced operands; emit the array-valued variant when both are MATRIX,
otherwise clone the node unchanged over the replaced operands. -/
def tensorize_binary_elementwise {ν : Type} (sz : ν → Size) (node : OrigNode ν)
    (new_inputs : List ν) (creator : Expr ν → Expr ν → Expr ν) :
    Except String (Expr ν) :=
  match new_inputs with
  | [a, b] =>
    if element_type (sz a) = .MATRIX ∧ element_type (sz b) = .MATRIX then
      .ok (creator (.operand a) (.operand b))
    else .ok (clone node.op (new_inputs.map Expr.operand))
  | _ => .error "assertion failed"

/-- Dispatch `Tensorizer.transform_node` through `transform_map`: each
operator kind of the table goes to its rewrite function (addition to the
binary elementwise rule with `matrix_addition`, the five unary kinds to the
unary elementwise rule with their array-valued creators); kinds outside the
table are cloned. -/
def transform_node {ν : Type} (sz : ν → Size) (node : OrigNode ν)
    (new_inputs : List ν) : Except String (Expr ν) :=
  match node.op with
  | .Addition => tensorize_binary_elementwise sz node new_inputs Expr.matrix_addition
  | .Multiplication => tensorize_multiply sz node new_inputs
  | .Division => tensorize_div sz node new_inputs
  | .Complement => tensorize_unary_elementwise sz node new_inputs Expr.matrix_complement
  | .Exp => tensorize_unary_elementwise sz node new_inputs Expr.matrix_exp
  | .Log => tensorize_unary_elementwise sz node new_inputs Expr.matrix_log
  | .Log1mexp => tensorize_unary_elementwise sz node new_inputs Expr.matrix_log1mexp
  | .Negate => tensorize_unary_elementwise sz node new_inputs Expr.matrix_negate
  | .Sum => tensorize_sum sz node new_inputs
  | .Other _ => .ok (clone node.op (new_inputs.map Expr.operand))

/-- Modelled from the spec: one step of the generic Graph Rewrite Engine
(`copy_and_replace.py`, not part of the sources at hand).  Per the
specification's engine contract, an eligible node is handed to the rule
set's rewrite function together with its replaced operands, and an
ineligible node is structurally cloned over its replaced operands. -/
def rewrite_step {ν : Type} (sz : ν → Size) (unsupported : OpKind → Bool)
    (node : OrigNode ν) (new_inputs : List ν) : Except String (Expr ν) :=
  if can_be_tensorized sz unsupported node = true then
    transform_node sz node new_inputs
  else
    .ok (clone node.op (new_inputs.map Expr.operand))

/-- Concrete sizer used to instantiate the theorems: node 0 is a 2-by-2
matrix, node 1 a rank-0 scalar, node 2 unsized, node 3 a 3-by-3 matrix, and
every other node a one-element column (scalar). -/
def szW : Nat → Size := fun n =>
  if n = 0 then .sized [2, 2]
  else if n = 1 then .sized []
  else if n = 2 then .unsized
  else if n = 3 then .sized [3, 3]
  else .sized [1]

/-- Concrete unsupported-kind set with no members. -/
def noneUnsupported : OpKind → Bool := fun _ => false

/-- Concrete unsupported-kind set containing exactly division. -/
def divUnsupported : OpKind → Bool := fun k => decide (k = .Division)

/-- Concrete division node over a matrix operand and a scalar operand. -/
def nodeDivW : OrigNode Nat := ⟨.Division, [0, 1], []⟩

/-- Concrete division node whose first operand is unsized. -/
def nodeDivUnsizedW : OrigNode Nat := ⟨.Division, [2, 1], []⟩

/-- Concrete multiplication node over a matrix operand and a scalar operand. -/
def nodeMultW : OrigNode Nat := ⟨.Multiplication, [0, 1], []⟩

/-- Concrete multiplication node whose first operand is unsized. -/
def nodeMultUnsizedW : OrigNode Nat := ⟨.Multiplication, [2, 0], []⟩

/-- Concrete multiplication node with three operands. -/
def nodeMult3W : OrigNode Nat := ⟨.Multiplication, [0, 1, 3], []⟩

/-- Concrete summation node over a matrix operand and a scalar operand. -/
def nodeSumW : OrigNode Nat := ⟨.Sum, [0, 1], []⟩

/-- Concrete addition node over two matrix operands. -/
def nodeAddW : OrigNode Nat := ⟨.Addition, [0, 3], []⟩

/-- Concrete negation node with a division node among its consumers. -/
def nodeNegW : OrigNode Nat := ⟨.Negate, [0], [.Division]⟩

/-- Concrete complement node. -/
def nodeComplW : OrigNode Nat := ⟨.Complement, [0], []⟩

/-- A sized shape is scalar exactly when every dimension equals 1. -/
theorem is_scalar_iff (dims : List Nat) : is_scalar dims = true ↔ ∀ d ∈ dims, d = 1 := by
  simp [is_scalar]

/-- On sized shapes the resolver answers SCALAR exactly for all-ones shapes. -/
theorem element_type_scalar_iff (dims : List Nat) :
    element_type (.sized dims) = .SCALAR ↔ is_scalar dims = true := by
  simp only [element_type]
  split_ifs with h1 h2 h3
  · rcases h1 with h | h
    · rcases List.length_eq_zero.mp h
      simp [is_scalar]
    · simp [h]
  · push_neg at h1
    simp [h1.2]
  · push_neg at h1
    simp [h1.2]
  · push_neg at h1
    simp [h1.2]

/-- On sized shapes the resolver answers MATRIX exactly for non-all-ones
shapes of rank exactly 2, or rank exactly 1 with the dimension above 1. -/
theorem element_type_matrix_iff (dims : List Nat) :
    element_type (.sized dims) = .MATRIX ↔
      is_scalar dims = false ∧
        (dims.length = 2 ∨ (dims.length = 1 ∧ 1 < dims.headD 0)) := by
  simp only [element_type]
  split_ifs with h1 h2 h3
  · have hs : is_scalar dims = true := by
      rcases h1 with h | h
      · rcases List.length_eq_zero.mp h
        rfl
      · exact h
    simp [hs]
  · obtain ⟨hl, hd⟩ := h2
    push_neg at h1
    have hs : is_scalar dims = false := by
      rcases hb : is_scalar dims
      · rfl
      · exact absurd hb h1.2
    simp only [hs, eq_self_iff_true, true_and, true_iff]
    exact Or.inr ⟨hl, hd⟩
  · push_neg at h1
    have hs : is_scalar dims = false := by
      rcases hb : is_scalar dims
      · rfl
      · exact absurd hb h1.2
    simp only [hs, eq_self_iff_true, true_and, true_iff]
    exact Or.inl h3
  · simp only [reduceCtorEq, false_iff]
    rintro ⟨-, hl2 | ⟨hl1, hd⟩⟩
    · exact h3 hl2
    · exact h2 ⟨hl1, hd⟩

/-- On sized shapes the resolver answers TENSOR exactly for non-all-ones
shapes of rank at least 3, or rank exactly 1 with the dimension equal to 0. -/
theorem element_type_tensor_iff (dims : List Nat) :
    element_type (.sized dims) = .TENSOR ↔
      is_scalar dims = false ∧
        (3 ≤ dims.length ∨ (dims.length = 1 ∧ dims.headD 0 = 0)) := by
  simp only [element_type]
  split_ifs with h1 h2 h3
  · have hs : is_scalar dims = true := by
      rcases h1 with h | h
      · rcases List.length_eq_zero.mp h
        rfl
      · exact h
    simp [hs]
  · obtain ⟨hl, hd⟩ := h2
    simp only [reduceCtorEq, false_iff, hl]
    rintro ⟨-, h | ⟨-, h0⟩⟩ <;> omega
  · simp only [reduceCtorEq, false_iff, h3]
    rintro ⟨-, h | ⟨h1', -⟩⟩ <;> omega
  · push_neg at h1
    have hs : is_scalar dims = false := by
      rcases hb : is_scalar dims
      · rfl
      · exact absurd hb h1.2
    simp only [hs, true_and, true_iff]
    rcases Nat.lt_or_ge dims.length 3 with hlt | hge
    · have hl1 : dims.length = 1 := by
        rcases h1 with ⟨hz, -⟩
        omega
      obtain ⟨d, rfl⟩ := List.length_eq_one.mp hl1
      have hd1 : d ≠ 1 := by
        intro hd
        subst hd
        exact absurd rfl h1.2
      have hdle : ¬ 1 < d := fun hh => h2 ⟨rfl, by simpa using hh⟩
      refine Or.inr ⟨rfl, ?_⟩
      simp only [List.headD_cons]
      omega
    · exact Or.inl hge

/-- Claim C2 (counterexample): on the rank-1 shape with single dimension 0
the source resolver answers TENSOR although the shape's rank is 1, while no
clause of the claim's description applies to that shape at all. -/
theorem element_type_rank_one_zero_cex :
    element_type (.sized [0]) = .TENSOR ∧ claimed_element_type (.sized [0]) = none := by
  constructor <;> decide

/-- Claim C2 (amended): the category resolver returns UNKNOWN exactly on the
unsized shape; on a sized shape it returns SCALAR exactly when every
dimension equals 1 (rank 0 included), MATRIX exactly when the shape is not
all-ones and has rank exactly 2 or rank exactly 1 with its single dimension
greater than 1, and HIGHER-RANK (TENSOR) exactly when the shape is not
all-ones and has rank at least 3 or rank exactly 1 with its single
dimension equal to 0. -/
theorem element_type_characterization (dims : List Nat) :
    element_type Size.unsized = .UNKNOWN
  ∧ (element_type (.sized dims) = .SCALAR ↔ is_scalar dims = true)
  ∧ (element_type (.sized dims) = .MATRIX ↔
       is_scalar dims = false ∧
         (dims.length = 2 ∨ (dims.length = 1 ∧ 1 < dims.headD 0)))
  ∧ (element_type (.sized dims) = .TENSOR ↔
       is_scalar dims = false ∧
         (3 ≤ dims.length ∨ (dims.length = 1 ∧ dims.headD 0 = 0)))
  ∧ element_type (.sized dims) ≠ .UNKNOWN := by
  refine ⟨rfl, element_type_scalar_iff dims, element_type_matrix_iff dims,
    element_type_tensor_iff dims, ?_⟩
  simp only [element_type]
  split_ifs <;> simp

/-- Claim C9: a shape that fits both the SCALAR description and the rank
side of the MATRIX description (rank exactly 2 with every dimension 1, or
rank 1 with single dimension 1) is resolved as SCALAR, not MATRIX: the
all-dimensions-one test takes precedence over the rank test. -/
theorem scalar_wins_over_matrix (dims : List Nat)
    (h : (dims.length = 2 ∧ is_scalar dims = true) ∨ dims = [1]) :
    element_type (.sized dims) = .SCALAR := by
  rcases h with ⟨-, hs⟩ | rfl
  · exact (element_type_scalar_iff dims).mpr hs
  · rfl

/-- Claim C9 (witness): the concrete shape with dimensions 1 and 1 is
resolved as SCALAR. -/
theorem scalar_wins_over_matrix_app : element_type (.sized [1, 1]) = .SCALAR :=
  scalar_wins_over_matrix [1, 1] (Or.inl ⟨rfl, rfl⟩)

/-- Claim C1: a division node is eligible exactly when it has exactly two
operands whose categories are MATRIX (first) and SCALAR (second); when the
replaced operands have those categories the rewrite produces
`matrix_scale(division(one, divisor), dividend)` where `one` is a
synthesized constant of value 1; an ineligible division node is cloned
unchanged by the engine. -/
theorem div_rule_correct {ν : Type} (sz : ν → Size) (unsupported : OpKind → Bool)
    (node : OrigNode ν) (hop : node.op = .Division) :
    (can_be_tensorized sz unsupported node = true ↔
       ∃ a b, node.inputs = [a, b] ∧
         element_type (sz a) = .MATRIX ∧ element_type (sz b) = .SCALAR)
  ∧ (∀ t s : ν, node.inputs.length = 2 →
       element_type (sz t) = .MATRIX → element_type (sz s) = .SCALAR →
       tensorize_div sz node [t, s] =
         .ok (.matrix_scale (.division (.pos_real 1) (.operand s)) (.operand t)))
  ∧ (∀ xs : List ν, can_be_tensorized sz unsupported node = false →
       rewrite_step sz unsupported node xs =
         .ok (clone .Division (xs.map Expr.operand))) := by
  obtain ⟨op, inputs, outputs⟩ := node
  cases hop
  refine ⟨?_, ?_, ?_⟩
  · show div_can_be_tensorized sz _ = true ↔ _
    rcases inputs with - | ⟨a, - | ⟨b, - | ⟨c, tl⟩⟩⟩ <;>
      simp [div_can_be_tensorized]
    constructor
    · rintro ⟨h1, h2⟩
      exact ⟨a, b, ⟨rfl, rfl⟩, h1, h2⟩
    · rintro ⟨a', b', ⟨rfl, rfl⟩, h1, h2⟩
      exact ⟨h1, h2⟩
  · intro t s hlen ht hs
    simp [tensorize_div, hlen, ht, hs]
  · intro xs hel
    simp [rewrite_step, hel]

/-- Claim C1 (witness): a concrete division node with a 2-by-2 matrix first
operand and a rank-0 scalar second operand is eligible, and its rewrite is
the scale of the dividend by the scalar reciprocal of the divisor. -/
theorem div_rule_correct_app :
    can_be_tensorized szW noneUnsupported nodeDivW = true ∧
    tensorize_div szW nodeDivW [0, 1] =
      .ok (.matrix_scale (.division (.pos_real 1) (.operand 1)) (.operand 0)) :=
  ⟨(div_rule_correct szW noneUnsupported nodeDivW rfl).1.mpr
      ⟨0, 1, rfl, by decide, by decide⟩,
   (div_rule_correct szW noneUnsupported nodeDivW rfl).2.1 0 1 rfl
      (by decide) (by decide)⟩

/-- Claim C10: the division rewrite re-validates the categories of the
replaced operands and raises ValueError when the first replaced operand is
not MATRIX or the second is not SCALAR; when the eligibility predicate held
on the original operands and each replacement preserves its original's
category, both error branches are unreachable and the rewrite succeeds. -/
theorem div_revalidates_replacements {ν : Type} (sz : ν → Size)
    (node : OrigNode ν) (a b t s : ν) (hin : node.inputs = [a, b]) :
    (element_type (sz t) ≠ .MATRIX →
       tensorize_div sz node [t, s] = .error "Expected a matrix as first operand")
  ∧ (element_type (sz t) = .MATRIX → element_type (sz s) ≠ .SCALAR →
       tensorize_div sz node [t, s] = .error "Expected a scalar as second operand")
  ∧ (div_can_be_tensorized sz node = true →
       element_type (sz t) = element_type (sz a) →
       element_type (sz s) = element_type (sz b) →
       tensorize_div sz node [t, s] =
         .ok (.matrix_scale (.division (.pos_real 1) (.operand s)) (.operand t))) := by
  have hlen : node.inputs.length = 2 := by rw [hin]; rfl
  refine ⟨?_, ?_, ?_⟩
  · intro ht
    simp [tensorize_div, hlen, ht]
  · intro ht hs
    simp [tensorize_div, hlen, ht, hs]
  · intro hel hta hsb
    have hcat : element_type (sz a) = .MATRIX ∧ element_type (sz b) = .SCALAR := by
      simpa [div_can_be_tensorized, hin] using hel
    simp [tensorize_div, hlen, hta.trans hcat.1, hsb.trans hcat.2]

/-- Claim C10 (witness): with a scalar replaced first operand the rewrite
raises the first ValueError, and with category-preserving replacements on an
eligible node it succeeds. -/
theorem div_revalidates_replacements_app :
    tensorize_div szW nodeDivW [1, 0] = .error "Expected a matrix as first operand" ∧
    tensorize_div szW nodeDivW [0, 1] =
      .ok (.matrix_scale (.division (.pos_real 1) (.operand 1)) (.operand 0)) :=
  ⟨(div_revalidates_replacements szW nodeDivW 0 1 1 0 rfl).1 (by decide),
   (div_revalidates_replacements szW nodeDivW 0 1 0 1 rfl).2.2 (by decide) rfl rfl⟩

/-- Claim C3: for a multiplication node with two sized replaced operands,
the rewrite emits an elementwise array multiplication when neither operand
is SCALAR; a scale node with the scalar first and the array second,
regardless of the original operand order, when exactly one operand is
SCALAR; and a plain multiplication of the two replaced operands when both
are SCALAR. -/
theorem mult_rule_cases {ν : Type} (sz : ν → Size) (node : OrigNode ν)
    (a b : ν) (la lb : List Nat) (hop : node.op = .Multiplication)
    (ha : sz a = .sized la) (hb : sz b = .sized lb) :
    (element_type (sz a) ≠ .SCALAR → element_type (sz b) ≠ .SCALAR →
       transform_node sz node [a, b] =
         .ok (.elementwise_multiplication (.operand a) (.operand b)))
  ∧ (element_type (sz a) = .SCALAR → element_type (sz b) ≠ .SCALAR →
       transform_node sz node [a, b] = .ok (.matrix_scale (.operand a) (.operand b)))
  ∧ (element_type (sz a) ≠ .SCALAR → element_type (sz b) = .SCALAR →
       transform_node sz node [a, b] = .ok (.matrix_scale (.operand b) (.operand a)))
  ∧ (element_type (sz a) = .SCALAR → element_type (sz b) = .SCALAR →
       transform_node sz node [a, b] =
         .ok (.multiplication (.operand a) (.operand b))) := by
  obtain ⟨op, inputs, outputs⟩ := node
  cases hop
  have hA : element_type (sz a) = .SCALAR ↔ is_scalar la = true := by
    rw [ha]; exact element_type_scalar_iff la
  have hB : element_type (sz b) = .SCALAR ↔ is_scalar lb = true := by
    rw [hb]; exact element_type_scalar_iff lb
  refine ⟨?_, ?_, ?_, ?_⟩ <;> intro h1 h2 <;>
    first
    | (have sa : is_scalar la = false := by
         rcases hx : is_scalar la
         · rfl
         · exact absurd (hA.mpr hx) h1
       have sb : is_scalar lb = false := by
         rcases hx : is_scalar lb
         · rfl
         · exact absurd (hB.mpr hx) h2
       simp [transform_node, tensorize_multiply, ha, hb, sa, sb])
    | (have sa : is_scalar la = true := hA.mp h1
       have sb : is_scalar lb = false := by
         rcases hx : is_scalar lb
         · rfl
         · exact absurd (hB.mpr hx) h2
       simp [transform_node, tensorize_multiply, ha, hb, sa, sb])
    | (have sa : is_scalar la = false := by
         rcases hx : is_scalar la
         · rfl
         · exact absurd (hA.mpr hx) h1
       have sb : is_scalar lb = true := hB.mp h2
       simp [transform_node, tensorize_multiply, ha, hb, sa, sb])
    | (have sa : is_scalar la = true := hA.mp h1
       have sb : is_scalar lb = true := hB.mp h2
       simp [transform_node, tensorize_multiply, ha, hb, sa, sb])

/-- Claim C3 (witness): a concrete multiplication of a rank-0 scalar by a
2-by-2 matrix, with the matrix in first position, rewrites to the scale of
the matrix by the scalar, scalar first. -/
theorem mult_rule_cases_app :
    transform_node szW nodeMultW [0, 1] = .ok (.matrix_scale (.operand 1) (.operand 0)) :=
  (mult_rule_cases szW nodeMultW 0 1 [2, 2] [] rfl rfl rfl).2.2.1
    (by decide) (by decide)

/-- Claim C4: for a summation node, if any of the node's original operands
has category MATRIX, the rewrite folds the replaced operands pairwise
through array addition left to right, preserving operand order, and wraps
the accumulated result in a single array-sum reduction node; otherwise it
emits a plain n-ary scalar sum over the replaced operands. -/
theorem sum_rule {ν : Type} (sz : ν → Size) (node : OrigNode ν)
    (first : ν) (rest : List ν) (hop : node.op = .Sum) :
    transform_node sz node (first :: rest) =
      if ∃ o ∈ node.inputs, element_type (sz o) = .MATRIX then
        .ok (.matrix_sum
          (rest.foldl (fun current i => .matrix_addition current (.operand i))
            (.operand first)))
      else .ok (.sum ((first :: rest).map Expr.operand)) := by
  obtain ⟨op, inputs, outputs⟩ := node
  cases hop
  rfl

/-- Claim C4 (witness): a concrete summation of scalar, matrix and matrix
operands folds the three replaced operands left to right into nested array
additions wrapped in an array-sum reduction. -/
theorem sum_rule_app :
    transform_node szW nodeSumW [1, 0, 3] =
      .ok (.matrix_sum (.matrix_addition (.matrix_addition (.operand 1) (.operand 0))
        (.operand 3))) := by
  have hc : ∃ o ∈ nodeSumW.inputs, element_type (szW o) = .MATRIX :=
    ⟨0, by decide, by decide⟩
  rw [sum_rule szW nodeSumW 1 [0, 3] rfl, if_pos hc]
  rfl

/-- Claim C5: for an addition, complement, exponential, log, log1mexp or
negation node, the rewrite emits the array-valued operator variant exactly
when the single replaced operand (unary case) or both replaced operands
(addition) have category MATRIX, and otherwise clones the node unchanged as
the scalar operator over the replaced operands. -/
theorem elementwise_rules {ν : Type} (sz : ν → Size) (node : OrigNode ν)
    (a b x : ν) :
    (node.op = .Addition → transform_node sz node [a, b] =
       if element_type (sz a) = .MATRIX ∧ element_type (sz b) = .MATRIX then
         .ok (.matrix_addition (.operand a) (.operand b))
       else .ok (clone .Addition [Expr.operand a, Expr.operand b]))
  ∧ (node.op = .Complement → transform_node sz node [x] =
       if element_type (sz x) = .MATRIX then .ok (.matrix_complement (.operand x))
       else .ok (clone .Complement [Expr.operand x]))
  ∧ (node.op = .Exp → transform_node sz node [x] =
       if element_type (sz x) = .MATRIX then .ok (.matrix_exp (.operand x))
       else .ok (clone .Exp [Expr.operand x]))
  ∧ (node.op = .Log → transform_node sz node [x] =
       if element_type (sz x) = .MATRIX then .ok (.matrix_log (.operand x))
       else .ok (clone .Log [Expr.operand x]))
  ∧ (node.op = .Log1mexp → transform_node sz node [x] =
       if element_type (sz x) = .MATRIX then .ok (.matrix_log1mexp (.operand x))
       else .ok (clone .Log1mexp [Expr.operand x]))
  ∧ (node.op = .Negate → transform_node sz node [x] =
       if element_type (sz x) = .MATRIX then .ok (.matrix_negate (.operand x))
       else .ok (clone .Negate [Expr.operand x])) := by
  obtain ⟨op, inputs, outputs⟩ := node
  refine ⟨?_, ?_, ?_, ?_, ?_, ?_⟩ <;> rintro rfl <;> rfl

/-- Claim C5 (witness): a concrete addition of two matrices and a concrete
negation of a rank-0 scalar, evaluated through the rewrite rules. -/
theorem elementwise_rules_app :
    transform_node szW nodeAddW [0, 3] =
      (if element_type (szW 0) = .MATRIX ∧ element_type (szW 3) = .MATRIX then
         .ok (.matrix_addition (.operand 0) (.operand 3))
       else .ok (clone .Addition [Expr.operand 0, Expr.operand 3]))
  ∧ transform_node szW nodeNegW [1] =
      (if element_type (szW 1) = .MATRIX then .ok (.matrix_negate (.operand 1))
       else .ok (clone .Negate [Expr.operand 1])) :=
  ⟨(elementwise_rules szW nodeAddW 0 3 0).1 rfl,
   (elementwise_rules szW nodeNegW 0 3 1).2.2.2.2.2 rfl⟩

/-- Claim C6: a negation node is eligible exactly when none of its consumers
belongs to the fixed set of not-yet-normalized operator kinds owned by the
earlier normalization pass, while the other always-eligible elementwise
unary kinds (complement, exponential, log, log1mexp) carry no consumer
restriction. -/
theorem negate_gate {ν : Type} (sz : ν → Size) (unsupported : OpKind → Bool)
    (node : OrigNode ν) :
    (node.op = .Negate →
       (can_be_tensorized sz unsupported node = true ↔
          ∀ k ∈ node.outputs, unsupported k = false))
  ∧ (node.op = .Complement ∨ node.op = .Exp ∨ node.op = .Log ∨ node.op = .Log1mexp →
       can_be_tensorized sz unsupported node = true) := by
  obtain ⟨op, inputs, outputs⟩ := node
  constructor
  · rintro rfl
    show negate_can_be_tensorized unsupported _ = true ↔ _
    unfold negate_can_be_tensorized
    split_ifs with h
    · simp only [Bool.false_eq_true, false_iff]
      simp only [List.any_eq_true] at h
      obtain ⟨k, hk, hu⟩ := h
      intro hall
      rw [hall k hk] at hu
      exact Bool.false_ne_true hu
    · simp only [List.any_eq_true, not_exists, not_and] at h
      simp only [true_iff]
      intro k hk
      rcases hb : unsupported k
      · rfl
      · exact absurd hb (h k hk)
  · rintro (rfl | rfl | rfl | rfl) <;> rfl

/-- Claim C6 (witness): a concrete negation whose only consumer is a
division node is gated by the unsupported set containing division, while a
complement node is always eligible under the same set. -/
theorem negate_gate_app :
    (can_be_tensorized szW divUnsupported nodeNegW = true ↔
       ∀ k ∈ [OpKind.Division], divUnsupported k = false)
  ∧ can_be_tensorized szW divUnsupported nodeComplW = true :=
  ⟨(negate_gate szW divUnsupported nodeNegW).1 rfl,
   (negate_gate szW divUnsupported nodeComplW).2 (Or.inl rfl)⟩

/-- Claim C7 (counterexample): an eligible multiplication node whose first
operand is unsized makes the pass raise the ValueError of the rewrite
function instead of collecting a diagnostic, so the unresolvable-shape
condition is thrown, not batched. -/
theorem mult_unsized_raises_cex :
    rewrite_step szW noneUnsupported nodeMultUnsizedW [2, 0] =
      .error "cannot multiply an unsized quantity" := rfl

/-- Claim C7 (amended): a multiplication node with two operands, one of
whose replaced operands is unsized, makes the pass raise a ValueError
immediately from the rewrite function; a division node with an unsized
operand is merely ineligible and is cloned unchanged, with no
unresolvable-shape diagnostic recorded by the tensorizer. -/
theorem mult_div_unsized_rule {ν : Type} (sz : ν → Size)
    (unsupported : OpKind → Bool) (node : OrigNode ν) (a b : ν)
    (hu : sz a = .unsized ∨ sz b = .unsized) :
    (node.op = .Multiplication → node.inputs.length = 2 →
       rewrite_step sz unsupported node [a, b] =
         .error "cannot multiply an unsized quantity")
  ∧ (node.op = .Division → node.inputs = [a, b] →
       can_be_tensorized sz unsupported node = false
     ∧ ∀ xs : List ν, rewrite_step sz unsupported node xs =
         .ok (clone .Division (xs.map Expr.operand))) := by
  obtain ⟨op, inputs, outputs⟩ := node
  constructor
  · rintro rfl hlen
    have hel : can_be_tensorized sz unsupported
        ⟨.Multiplication, inputs, outputs⟩ = true := by
      simp [can_be_tensorized, mult_can_be_tensorized, hlen]
    rw [rewrite_step, if_pos hel]
    rcases hu with h | h
    · rcases hsb : sz b with - | lb <;>
        simp [transform_node, tensorize_multiply, h, hsb]
    · rcases hsa : sz a with - | la <;>
        simp [transform_node, tensorize_multiply, h, hsa]
  · rintro rfl hin
    have hin' : inputs = [a, b] := hin
    subst hin'
    have hel : can_be_tensorized sz unsupported
        ⟨.Division, [a, b], outputs⟩ = false := by
      rcases hu with h | h <;>
        simp [can_be_tensorized, div_can_be_tensorized, element_type, h]
    exact ⟨hel, fun xs => by rw [rewrite_step, if_neg (by simp [hel])]⟩

/-- Claim C7 (witness): a concrete multiplication with an unsized first
operand raises through the pass, and a concrete division with an unsized
first operand is ineligible. -/
theorem mult_div_unsized_rule_app :
    rewrite_step szW noneUnsupported nodeMultUnsizedW [2, 3] =
      .error "cannot multiply an unsized quantity"
  ∧ can_be_tensorized szW noneUnsupported nodeDivUnsizedW = false :=
  ⟨(mult_div_unsized_rule szW noneUnsupported nodeMultUnsizedW 2 3
      (Or.inl rfl)).1 rfl rfl,
   ((mult_div_unsized_rule szW noneUnsupported nodeDivUnsizedW 2 1
      (Or.inl rfl)).2 rfl rfl).1⟩

/-- Claim C8 (counterexample): a concrete multiplication node with three
operands is not eligible and the engine clones it unchanged, so the pass
raises no rule-arity diagnostic for it at all. -/
theorem mult_three_operands_cex :
    can_be_tensorized szW noneUnsupported nodeMult3W = false
  ∧ rewrite_step szW noneUnsupported nodeMult3W [0, 1, 3] =
      .ok (clone .Multiplication [Expr.operand 0, Expr.operand 1, Expr.operand 3]) :=
  ⟨rfl, rfl⟩

/-- Claim C8 (amended): a multiplication node whose operand count is not 2
fails the arity eligibility predicate and is cloned unchanged by the engine
without any diagnostic, so it is never rewritten into a tensor
multiplication; the rule-arity ValueError inside the rewrite function is
raised immediately only if that function is invoked directly with other
than two replaced operands, which the engine's eligibility gating
prevents. -/
theorem mult_arity_rule {ν : Type} (sz : ν → Size) (unsupported : OpKind → Bool)
    (node : OrigNode ν) (hop : node.op = .Multiplication)
    (hlen : node.inputs.length ≠ 2) :
    can_be_tensorized sz unsupported node = false
  ∧ (∀ xs : List ν, rewrite_step sz unsupported node xs =
       .ok (clone .Multiplication (xs.map Expr.operand)))
  ∧ (∀ xs : List ν, xs.length ≠ 2 →
       tensorize_multiply sz node xs =
         .error "Cannot transform a mult into a tensor mult because there are not two operands") := by
  obtain ⟨op, inputs, outputs⟩ := node
  cases hop
  have hel : can_be_tensorized sz unsupported
      ⟨.Multiplication, inputs, outputs⟩ = false := by
    simp [can_be_tensorized, mult_can_be_tensorized, hlen]
  refine ⟨hel, fun xs => by rw [rewrite_step, if_neg (by simp [hel])], ?_⟩
  intro xs hxs
  rcases xs with - | ⟨u, - | ⟨v, - | ⟨w, tl⟩⟩⟩
  · rfl
  · rfl
  · exact absurd rfl hxs
  · rfl

/-- Claim C8 (witness): the three-operand multiplication node is ineligible,
and invoking the rewrite function directly on its three replaced operands
raises the rule-arity ValueError. -/
theorem mult_arity_rule_app :
    can_be_tensorized szW noneUnsupported nodeMult3W = false
  ∧ tensorize_multiply szW nodeMult3W [0, 1, 3] =
      .error "Cannot transform a mult into a tensor mult because there are not two operands" :=
  ⟨(mult_arity_rule szW noneUnsupported nodeMult3W rfl (by decide)).1,
   (mult_arity_rule szW noneUnsupported nodeMult3W rfl (by decide)).2.2
      [0, 1, 3] (by decide)⟩

end Tensorizer
